import Mathlib

/-!
Shallow embedding of the `als_care` monitoring-and-reply bot
(`als_client` main module, the variant serving the Hono HTTP facade),
together with the search/auth helpers it shares with the
`twitter-client` scripts.  JavaScript strings are modelled as Lean
`String`s, `Map`s as association lists, `Set`s as duplicate-free lists,
and the processed-tweets JSON file as an optional list of IDs carried in
the state.  Asynchronous interactions (search results, the externally
submitted reply, success of the quote-tweet publish) are supplied as
explicit oracle parameters, matching the single-logical-worker model of
the program.
-/

namespace AlsCare

/-- The fixed keyword the bot searches for (`SEARCH_KEYWORD`). -/
def SEARCH_KEYWORD : String := "@0xkeyaru"

/-- JavaScript truthiness of an optional string field: `undefined` and
the empty string are falsy. -/
def truthy : Option String → Bool
  | none => false
  | some s => s ≠ ""

/-- Lower-casing of a string, modelling `String.prototype.toLowerCase`. -/
def lowerStr (s : String) : String := String.mk (s.data.map Char.toLower)

/-- Whether `needle` occurs at the head of `hay`. -/
def startsWithList : List Char → List Char → Bool
  | [], _ => true
  | _ :: _, [] => false
  | n :: ns, h :: hs => n == h && startsWithList ns hs

/-- Whether `needle` occurs anywhere inside `hay`, modelling
`String.prototype.includes`. -/
def containsSub (hay needle : List Char) : Bool :=
  match hay with
  | [] => needle.isEmpty
  | _ :: hs => startsWithList needle hay || containsSub hs needle

/-- Case-insensitive containment:
`s.toLowerCase().includes(sub.toLowerCase())`. -/
def includesCI (s sub : String) : Bool :=
  containsSub (lowerStr s).data (lowerStr sub).data

/-- A raw search result as delivered by `fetchSearchTweets`: the three
fields the bot reads may each be `undefined` (or empty). -/
structure SearchTweet where
  id : Option String
  username : Option String
  text : Option String
deriving Repr, DecidableEq

/-- Model of the `TweetData` record stored in the in-memory `tweetStore`. -/
structure TweetData where
  id : String
  username : String
  content : String
  timestamp : Nat
  processed : Bool
  response : Option String
deriving Repr, DecidableEq

/-- Model of `Map.set`: update an association list at a key, appending when the
key is absent. -/
def storeSet (store : List (String × TweetData)) (k : String) (v : TweetData) :
    List (String × TweetData) :=
  match store with
  | [] => [(k, v)]
  | (k0, v0) :: rest =>
    if k0 == k then (k0, v) :: rest else (k0, v0) :: storeSet rest k v

/-- Model of `Map.get`: look a key up in the association list. -/
def storeGet (store : List (String × TweetData)) (k : String) : Option TweetData :=
  match store with
  | [] => none
  | (k0, v0) :: rest => if k0 == k then some v0 else storeGet rest k

/-- Model of `Set.add`: insert an ID, keeping the list duplicate-free. -/
def addId (ids : List String) (id : String) : List String :=
  if ids.contains id then ids else ids ++ [id]

/-- The mutable state of the bot process.  `persistedIds` models the
contents of `processed-tweets.json` on disk (`none` when the file is
missing or unparseable). -/
structure BotState where
  tweetStore : List (String × TweetData)
  currentActiveTweet : Option TweetData
  processedTweetIds : List String
  persistedIds : Option (List String)
deriving Repr, DecidableEq

/-- The state at process start, before `loadProcessedTweets` runs. -/
def initialState (disk : Option (List String)) : BotState :=
  { tweetStore := [], currentActiveTweet := none,
    processedTweetIds := [], persistedIds := disk }

/-- Model of `loadProcessedTweets`: fold the IDs parsed from the file into the
in-memory set (no-op when the file is missing or not an array). -/
def loadProcessedTweets (st : BotState) : BotState :=
  match st.persistedIds with
  | none => st
  | some ids => { st with processedTweetIds := ids.foldl addId st.processedTweetIds }

/-- Model of `saveProcessedTweets`: rewrite the file with `Array.from(set)`. -/
def saveProcessedTweets (st : BotState) : BotState :=
  { st with persistedIds := some st.processedTweetIds }

/-- The filter applied to each raw search result inside
`searchForLatestTweet`: all three fields truthy, text contains the
keyword case-insensitively, and the ID is not in the processed set. -/
def tweetMatches (processed : List String) (t : SearchTweet) : Bool :=
  truthy t.id && truthy t.username && truthy t.text &&
    includesCI (t.text.getD "") SEARCH_KEYWORD &&
    !(processed.contains (t.id.getD ""))

/-- Construction of the `TweetData` record for a surviving raw tweet. -/
def mkTweetData (now : Nat) (t : SearchTweet) : TweetData :=
  { id := t.id.getD "", username := t.username.getD "",
    content := t.text.getD "", timestamp := now,
    processed := false, response := none }

/-- Model of `searchForLatestTweet`: scan the search results in order, return the
first one passing the filter (after inserting it into the store), or
`none` when no result survives. -/
def searchForLatestTweet (now : Nat) (tweets : List SearchTweet) (st : BotState) :
    Option TweetData × BotState :=
  match tweets with
  | [] => (none, st)
  | t :: rest =>
    if tweetMatches st.processedTweetIds t then
      let td := mkTweetData now t
      (some td, { st with tweetStore := storeSet st.tweetStore td.id td })
    else
      searchForLatestTweet now rest st

/-- Whether the externally submitted reply is visible at elapsed time
`t` (ms): the reply was posted at time `a`. -/
def respondedAt (arrival : Option Nat) (t : Nat) : Bool :=
  match arrival with
  | none => false
  | some a => a ≤ t

/-- One `setInterval` loop of the response waiter: every 5000 ms tick
first checks for the reply, then for exhaustion of the 120000 ms
budget.  `fuel` bounds the recursion; 24 ticks always suffice. -/
def waitLoop (arrival : Option Nat) : Nat → Nat → Nat × Bool
  | 0, elapsed => (elapsed, respondedAt arrival elapsed)
  | fuel + 1, elapsed =>
    if respondedAt arrival (elapsed + 5000) then (elapsed + 5000, true)
    else if 120000 ≤ elapsed + 5000 then (elapsed + 5000, false)
    else waitLoop arrival fuel (elapsed + 5000)

/-- The full wait of `processTweetAndRespond`: returns the elapsed time
at which the promise resolves and whether a reply was observed. -/
def awaitReply (arrival : Option Nat) : Nat × Bool :=
  waitLoop arrival 24 0

/-- Model of `response.substring(0, n)`: the first `n` characters of a string. -/
def substring0 (s : String) (n : Nat) : String :=
  String.mk (s.data.take n)

/-- Model of `currentActiveTweet = null` guarded by
`currentActiveTweet?.id === tweet.id`. -/
def clearSlotIf (st : BotState) (id : String) : BotState :=
  match st.currentActiveTweet with
  | some t => if t.id == id then { st with currentActiveTweet := none } else st
  | none => st

/-- Model of `processTweetAndRespond`: occupy the active slot, wait for the
externally submitted reply, then either publish a quote tweet built
from the first 240 characters of the reply (marking the tweet processed
and persisting the handled set) or, when no reply was observed, just
record the ID as handled; `publishOk = false` models
`scraper.sendQuoteTweet` throwing, which lands in the `catch` block
(record the ID, persist, clear the slot).  Returns the new state and
the text of the published quote, if any. -/
def processTweetAndRespond (st : BotState) (tweet : TweetData)
    (arrival : Option Nat) (replyText : String) (publishOk : Bool) :
    BotState × Option String :=
  let st1 := { st with currentActiveTweet := some tweet }
  if (awaitReply arrival).2 then
    -- the facade stored the reply on the shared record during the wait
    let t1 := { tweet with response := some replyText }
    let q := substring0 replyText 240
    if publishOk then
      let t2 := { t1 with processed := true }
      let st2 := { st1 with tweetStore := storeSet st1.tweetStore t2.id t2 }
      let st3 := saveProcessedTweets
        { st2 with processedTweetIds := addId st2.processedTweetIds tweet.id }
      (clearSlotIf st3 tweet.id, some q)
    else
      let st2 := { st1 with tweetStore := storeSet st1.tweetStore t1.id t1 }
      let st3 := saveProcessedTweets
        { st2 with processedTweetIds := addId st2.processedTweetIds tweet.id }
      (clearSlotIf st3 tweet.id, none)
  else
    let st3 := saveProcessedTweets
      { st1 with processedTweetIds := addId st1.processedTweetIds tweet.id }
    (clearSlotIf st3 tweet.id, none)

/-- The oracle inputs consumed by one processing cycle: the raw search
results the platform would deliver, the arrival time of the external
reply, its text, and whether publishing would succeed. -/
structure CycleEnv where
  now : Nat
  searchResults : List SearchTweet
  arrival : Option Nat
  replyText : String
  publishOk : Bool

/-- Model of `runProcessingCycle`: skip (returning the state unchanged) when the
active slot is occupied; otherwise search, and process the candidate if
one was found.  The boolean records whether the platform search was
invoked. -/
def runProcessingCycle (st : BotState) (e : CycleEnv) : BotState × Bool :=
  match st.currentActiveTweet with
  | some _ => (st, false)
  | none =>
    match searchForLatestTweet e.now e.searchResults st with
    | (some td, st1) => ((processTweetAndRespond st1 td e.arrival e.replyText e.publishOk).1, true)
    | (none, st1) => (st1, true)

/-- Iterated main loop: the states reachable at cycle boundaries. -/
def runCycles (st : BotState) : List CycleEnv → BotState
  | [] => st
  | e :: es => runCycles (runProcessingCycle st e).1 es

/-- Model of the `POST /api/tweet-response` handler: `400` when either body
field is falsy, `404` when the ID is not in the store, otherwise set
the `response` field on the stored record and return `200`. -/
def postTweetResponse (st : BotState) (tweetId resp : Option String) :
    BotState × Nat :=
  if !(truthy tweetId) || !(truthy resp) then (st, 400)
  else
    match storeGet st.tweetStore (tweetId.getD "") with
    | none => (st, 404)
    | some t =>
      let t1 := { t with response := some (resp.getD "") }
      ({ st with tweetStore := storeSet st.tweetStore (tweetId.getD "") t1 }, 200)

/-- Model of the `GET /api/current-tweet` handler: `404` when the slot is empty,
otherwise `200` with the tweet in the slot. -/
def getCurrentTweet (st : BotState) : Nat × Option TweetData :=
  match st.currentActiveTweet with
  | none => (404, none)
  | some t => (200, some t)

/-! ### Authenticator (`initializeTwitterClient` and its helpers) -/

/-- Outcome of one `scraper.login` attempt, as observed by
`loginWithCredentials`: either the call throws with a message, or it
completes and `isLoggedIn` reports the given value. -/
inductive CredAttempt where
  | throws (msg : String)
  | loggedIn (ok : Bool)
deriving Repr, DecidableEq

/-- The environment of `initializeTwitterClient`: the state of the
cookie file and the responses of the platform to the cookie path, whether
credentials are configured, and the outcomes the platform would give to
successive credential login attempts. -/
structure AuthEnv where
  cookieFileExists : Bool
  cookieParseValid : Bool
  setCookiesOk : Bool
  cookieLoggedIn : Bool
  credsPresent : Bool
  credAttemptOutcomes : List CredAttempt

/-- Model of `tryAuthWithCookies`: succeeds exactly when the cookie file exists,
parses to a non-empty array, the cookies can be applied, and the
liveness check passes. -/
def tryAuthWithCookies (env : AuthEnv) : Bool :=
  env.cookieFileExists && env.cookieParseValid && env.setCookiesOk &&
    env.cookieLoggedIn

/-- Result of the single `scraper.login` attempt that
`loginWithCredentials` makes: the head of the outcome list; later
entries are never consulted because the function contains no retry
loop. -/
def credLoginOnce (outcomes : List CredAttempt) : Bool :=
  match outcomes with
  | [] => false
  | CredAttempt.throws _ :: _ => false
  | CredAttempt.loggedIn ok :: _ => ok

/-- Model of `loginWithCredentials`: throws when credentials are absent;
otherwise makes exactly one login attempt and returns whether it
succeeded, together with the number of attempts consumed. -/
def loginWithCredentials (env : AuthEnv) : Except String (Bool × Nat) :=
  if !env.credsPresent then
    Except.error "Twitter credentials not found in environment variables"
  else
    Except.ok (credLoginOnce env.credAttemptOutcomes, 1)

/-- Observable trace of one `initializeTwitterClient` run: whether the
cookie file was deleted and how many credential login attempts were
made. -/
structure InitTrace where
  cookieFileDeleted : Bool
  credAttemptsMade : Nat
deriving Repr, DecidableEq

/-- Model of `initializeTwitterClient`: try the cookie path first; only on its
failure delete the cookie file (when one exists) and fall back to a
single credential login; throw when both paths fail.  Returns the
observable trace together with the normal or exceptional outcome. -/
def initializeTwitterClient (env : AuthEnv) : InitTrace × Except String Unit :=
  if tryAuthWithCookies env then
    ({ cookieFileDeleted := false, credAttemptsMade := 0 }, Except.ok ())
  else
    let deleted := env.cookieFileExists
    match loginWithCredentials env with
    | Except.error msg =>
      ({ cookieFileDeleted := deleted, credAttemptsMade := 0 }, Except.error msg)
    | Except.ok (true, n) =>
      ({ cookieFileDeleted := deleted, credAttemptsMade := n }, Except.ok ())
    | Except.ok (false, n) =>
      ({ cookieFileDeleted := deleted, credAttemptsMade := n },
        Except.error "Failed to authenticate with Twitter")

/-! ### Helper lemmas -/

theorem addId_contains_self (l : List String) (a : String) :
    (addId l a).contains a = true := by
  unfold addId; split <;> simp_all

theorem mem_addId (l : List String) (a x : String) :
    x ∈ addId l a ↔ x ∈ l ∨ x = a := by
  unfold addId; split <;> rename_i h <;> simp_all

theorem mem_foldl_addId (l : List String) :
    ∀ acc x, x ∈ l.foldl addId acc ↔ x ∈ acc ∨ x ∈ l := by
  induction l with
  | nil => simp
  | cons a l ih =>
    intro acc x
    simp only [List.foldl_cons, ih, mem_addId, List.mem_cons]
    tauto

theorem search_untouched_fields (now : Nat) (tws : List SearchTweet) (st : BotState) :
    (searchForLatestTweet now tws st).2.currentActiveTweet = st.currentActiveTweet ∧
    (searchForLatestTweet now tws st).2.processedTweetIds = st.processedTweetIds ∧
    (searchForLatestTweet now tws st).2.persistedIds = st.persistedIds := by
  induction tws with
  | nil => simp [searchForLatestTweet]
  | cons t rest ih =>
    simp only [searchForLatestTweet]
    split <;> simp_all

theorem search_some_spec (now : Nat) (tws : List SearchTweet) (st : BotState)
    (td : TweetData) (h : (searchForLatestTweet now tws st).1 = some td) :
    ∃ pre t post, tws = pre ++ t :: post ∧
      (∀ u ∈ pre, tweetMatches st.processedTweetIds u = false) ∧
      tweetMatches st.processedTweetIds t = true ∧ td = mkTweetData now t := by
  induction tws with
  | nil => simp [searchForLatestTweet] at h
  | cons t rest ih =>
    by_cases hm : tweetMatches st.processedTweetIds t = true
    · refine ⟨[], t, rest, rfl, by simp, hm, ?_⟩
      simp [searchForLatestTweet, hm] at h
      exact h.symm
    · have h' : (searchForLatestTweet now rest st).1 = some td := by
        simpa [searchForLatestTweet, hm] using h
      obtain ⟨pre, t0, post, e, hpre, hmt, htd⟩ := ih h'
      refine ⟨t :: pre, t0, post, by simp [e], ?_, hmt, htd⟩
      intro u hu
      rcases List.mem_cons.mp hu with rfl | hu
      · simpa using hm
      · exact hpre u hu

theorem tweetMatches_parts (processed : List String) (t : SearchTweet)
    (h : tweetMatches processed t = true) :
    includesCI (t.text.getD "") SEARCH_KEYWORD = true ∧
    processed.contains (t.id.getD "") = false := by
  simp only [tweetMatches, Bool.and_eq_true, Bool.not_eq_true'] at h
  exact ⟨h.1.2, h.2⟩

theorem search_some_not_processed (now : Nat) (tws : List SearchTweet) (st : BotState)
    (td : TweetData) (h : (searchForLatestTweet now tws st).1 = some td) :
    st.processedTweetIds.contains td.id = false ∧
    includesCI td.content SEARCH_KEYWORD = true := by
  obtain ⟨pre, t, post, _, _, hmt, htd⟩ := search_some_spec now tws st td h
  obtain ⟨hk, hc⟩ := tweetMatches_parts st.processedTweetIds t hmt
  subst htd
  exact ⟨hc, hk⟩

theorem processTweet_spec (st : BotState) (tweet : TweetData) (arrival : Option Nat)
    (rt : String) (ok : Bool) :
    (processTweetAndRespond st tweet arrival rt ok).1.currentActiveTweet = none ∧
    (processTweetAndRespond st tweet arrival rt ok).1.processedTweetIds.contains tweet.id = true ∧
    (processTweetAndRespond st tweet arrival rt ok).1.persistedIds =
      some (processTweetAndRespond st tweet arrival rt ok).1.processedTweetIds ∧
    (processTweetAndRespond st tweet arrival rt ok).2 =
      (if (awaitReply arrival).2 && ok then some (substring0 rt 240) else none) := by
  unfold processTweetAndRespond
  cases hg : (awaitReply arrival).2 <;> cases ok <;>
    simp [clearSlotIf, saveProcessedTweets, addId_contains_self, mem_addId]

theorem cycle_slot_none (st : BotState) (e : CycleEnv)
    (h : st.currentActiveTweet = none) :
    (runProcessingCycle st e).1.currentActiveTweet = none := by
  unfold runProcessingCycle
  rw [h]
  cases hs : searchForLatestTweet e.now e.searchResults st with
  | mk fst snd =>
    cases fst with
    | some td => simpa using (processTweet_spec snd td e.arrival e.replyText e.publishOk).1
    | none =>
      have := (search_untouched_fields e.now e.searchResults st).1
      rw [hs] at this
      simpa using this.trans h

theorem runCycles_slot_none (st : BotState) (h : st.currentActiveTweet = none) :
    ∀ envs, (runCycles st envs).currentActiveTweet = none := by
  intro envs
  induction envs generalizing st with
  | nil => simpa [runCycles] using h
  | cons e es ih =>
    simp only [runCycles]
    exact ih _ (cycle_slot_none st e h)

/-! ### Claims -/

/-- C1: in every reachable state of the main cycle at most one tracked
post occupies the active slot — `currentActiveTweet` is a single
nullable reference, it holds at most one post at a time, and at every
cycle boundary of a run started from the initial state it is empty —
and a processing cycle invoked while the slot is occupied returns
immediately with the state unchanged and without invoking the platform
search. -/
theorem C1_single_active_slot (st : BotState) (e : CycleEnv)
    (h : st.currentActiveTweet.isSome = true) :
    runProcessingCycle st e = (st, false) ∧
    (∀ t1 t2, st.currentActiveTweet = some t1 → st.currentActiveTweet = some t2 →
      t1 = t2) ∧
    (∀ disk envs,
      (runCycles (loadProcessedTweets (initialState disk)) envs).currentActiveTweet =
        none) := by
  refine ⟨?_, ?_, ?_⟩
  · unfold runProcessingCycle
    cases hs : st.currentActiveTweet with
    | none => rw [hs] at h; simp at h
    | some t => rfl
  · intro t1 t2 h1 h2
    rw [h1] at h2
    exact Option.some.inj h2
  · intro disk envs
    apply runCycles_slot_none
    cases disk <;> rfl

/-- Concrete state with an occupied active slot, for the C1 witness. -/
def c1StateW : BotState :=
  { tweetStore := [],
    currentActiveTweet := some
      { id := "1", username := "alice", content := "hi @0xkeyaru",
        timestamp := 0, processed := false, response := none },
    processedTweetIds := [], persistedIds := none }

/-- Concrete cycle environment for the C1 witness. -/
def c1EnvW : CycleEnv :=
  { now := 0, searchResults := [⟨some "9", some "bob", some "yo @0xkeyaru"⟩],
    arrival := none, replyText := "", publishOk := true }

/-- Witness for C1 at a concrete occupied state: the cycle skips. -/
theorem C1_witness : runProcessingCycle c1StateW c1EnvW = (c1StateW, false) :=
  (C1_single_active_slot c1StateW c1EnvW (by rfl)).1

/-- Concrete search result authored by the handle the keyword mentions,
for the C2 counterexample. -/
def c2Tweet : SearchTweet :=
  { id := some "1", username := some "0xkeyaru", text := some "hello @0xkeyaru" }

/-- C2 counterexample: `searchForLatestTweet` applies no own-author
filter.  A post authored by "0xkeyaru" — the very account whose handle
`SEARCH_KEYWORD` mentions, i.e. the own identity of the bot — passes the
filter and is returned, refuting the clause that the poller never
returns a post whose author equals the own identity of the bot. -/
theorem C2_counterexample :
    (searchForLatestTweet 0 [c2Tweet] (initialState none)).1 =
      some { id := "1", username := "0xkeyaru", content := "hello @0xkeyaru",
             timestamp := 0, processed := false, response := none } ∧
    SEARCH_KEYWORD = "@" ++ "0xkeyaru" := by
  exact ⟨by decide, by rfl⟩

/-- C2 (amended): for every search result sequence and every
handled-ID set, the poller never returns a post whose ID is already
handled or whose text does not contain the keyword case-insensitively;
the returned post is built from the first raw result surviving the
filter (which also drops results with missing or empty fields), and —
the return type being a single `Option` — at most one candidate is
returned per invocation.  No own-author filter exists in the code. -/
theorem C2_search_filter (now : Nat) (tws : List SearchTweet) (st : BotState)
    (td : TweetData) (h : (searchForLatestTweet now tws st).1 = some td) :
    st.processedTweetIds.contains td.id = false ∧
    includesCI td.content SEARCH_KEYWORD = true ∧
    ∃ pre t post, tws = pre ++ t :: post ∧
      (∀ u ∈ pre, tweetMatches st.processedTweetIds u = false) ∧
      tweetMatches st.processedTweetIds t = true ∧ td = mkTweetData now t := by
  obtain ⟨hc, hk⟩ := search_some_not_processed now tws st td h
  exact ⟨hc, hk, search_some_spec now tws st td h⟩

/-- Concrete surviving search result for the C2 witness. -/
def c2TweetW : SearchTweet :=
  { id := some "2", username := some "bob", text := some "yo @0xKeyaru" }

/-- Witness for C2 at a concrete input. -/
theorem C2_witness :
    (initialState none).processedTweetIds.contains (mkTweetData 7 c2TweetW).id = false ∧
    includesCI (mkTweetData 7 c2TweetW).content SEARCH_KEYWORD = true :=
  ⟨(C2_search_filter 7 [c2TweetW] (initialState none) (mkTweetData 7 c2TweetW)
      (by decide)).1,
   (C2_search_filter 7 [c2TweetW] (initialState none) (mkTweetData 7 c2TweetW)
      (by decide)).2.1⟩

/-- C3: if no reply was observed within the wait budget, the responder
records the post ID in the handled set, persists that set to disk, and
clears the active slot; moreover on every exit path — reply published,
publish exception, or timeout — the active slot is cleared. -/
theorem C3_responder_exit (st : BotState) (tweet : TweetData)
    (arrival : Option Nat) (rt : String) (ok : Bool)
    (h : (awaitReply arrival).2 = false) :
    (processTweetAndRespond st tweet arrival rt ok).1.processedTweetIds.contains
      tweet.id = true ∧
    (processTweetAndRespond st tweet arrival rt ok).1.persistedIds =
      some (processTweetAndRespond st tweet arrival rt ok).1.processedTweetIds ∧
    (processTweetAndRespond st tweet arrival rt ok).1.currentActiveTweet = none ∧
    (processTweetAndRespond st tweet arrival rt ok).2 = none ∧
    (∀ (arrival2 : Option Nat) (rt2 : String) (ok2 : Bool),
      (processTweetAndRespond st tweet arrival2 rt2 ok2).1.currentActiveTweet =
        none) := by
  obtain ⟨h1, h2, h3, h4⟩ := processTweet_spec st tweet arrival rt ok
  rw [h] at h4
  simp only [Bool.false_and, if_neg Bool.false_ne_true] at h4
  exact ⟨h2, h3, h1, h4, fun a2 r2 o2 => (processTweet_spec st tweet a2 r2 o2).1⟩

/-- Concrete tweet for the C3 witness. -/
def c3TweetW : TweetData :=
  { id := "5", username := "carol", content := "help @0xkeyaru",
    timestamp := 3, processed := false, response := none }

/-- Witness for C3: a timed-out wait at a concrete state. -/
theorem C3_witness :
    (processTweetAndRespond (initialState none) c3TweetW none "ignored" true).1.processedTweetIds.contains
      c3TweetW.id = true ∧
    (processTweetAndRespond (initialState none) c3TweetW none "ignored" true).1.persistedIds =
      some (processTweetAndRespond (initialState none) c3TweetW none "ignored" true).1.processedTweetIds ∧
    (processTweetAndRespond (initialState none) c3TweetW none "ignored" true).1.currentActiveTweet = none ∧
    (processTweetAndRespond (initialState none) c3TweetW none "ignored" true).2 = none :=
  ⟨(C3_responder_exit (initialState none) c3TweetW none "ignored" true (by rfl)).1,
   (C3_responder_exit (initialState none) c3TweetW none "ignored" true (by rfl)).2.1,
   (C3_responder_exit (initialState none) c3TweetW none "ignored" true (by rfl)).2.2.1,
   (C3_responder_exit (initialState none) c3TweetW none "ignored" true (by rfl)).2.2.2.1⟩

theorem waitLoop_reply_observed (a : Nat) :
    ∀ fuel elapsed, elapsed ≤ a → a < 115000 → a ≤ elapsed + 5000 * fuel →
      (waitLoop (some a) fuel elapsed).2 = true ∧
      (waitLoop (some a) fuel elapsed).1 ≤ a + 5000 ∧
      (waitLoop (some a) fuel elapsed).1 < 120000 := by
  intro fuel
  induction fuel with
  | zero =>
    intro elapsed h1 h2 h3
    refine ⟨?_, ?_, ?_⟩
    · show respondedAt (some a) elapsed = true
      simp only [respondedAt, decide_eq_true_eq]
      omega
    · show elapsed ≤ a + 5000
      omega
    · show elapsed < 120000
      omega
  | succ fuel ih =>
    intro elapsed h1 h2 h3
    by_cases hle : a ≤ elapsed + 5000
    · have hres : respondedAt (some a) (elapsed + 5000) = true := by
        simp only [respondedAt, decide_eq_true_eq]
        omega
      simp only [waitLoop, hres, if_true]
      refine ⟨trivial, by omega, by omega⟩
    · have hres : respondedAt (some a) (elapsed + 5000) = false := by
        simp only [respondedAt, decide_eq_false_iff_not]
        omega
      have hb : ¬ (120000 ≤ elapsed + 5000) := by omega
      simp only [waitLoop, hres, Bool.false_eq_true, if_false, if_neg hb]
      exact ih (elapsed + 5000) (by omega) h2 (by omega)

/-- C6: while a cycle is waiting on the active post, a reply that
becomes visible at time `a` (with at least one poll interval of budget
left) is observed by the waiter within one 5000 ms poll interval, the
wait ends strictly before the 120000 ms budget, and the cycle proceeds
to publishing; if no reply ever arrives, the wait ends exactly when the
accumulated wait reaches the budget. -/
theorem C6_waiter_round_trip (a : Nat) (h : a + 5000 < 120000) :
    (awaitReply (some a)).2 = true ∧
    (awaitReply (some a)).1 ≤ a + 5000 ∧
    (awaitReply (some a)).1 < 120000 ∧
    awaitReply none = (120000, false) ∧
    (∀ st tweet rt, (processTweetAndRespond st tweet (some a) rt true).2 =
      some (substring0 rt 240)) := by
  have hs := waitLoop_reply_observed a 24 0 (Nat.zero_le a) (by omega) (by omega)
  refine ⟨hs.1, hs.2.1, hs.2.2, by rfl, ?_⟩
  intro st tweet rt
  have h4 := (processTweet_spec st tweet (some a) rt true).2.2.2
  have hg : (awaitReply (some a)).2 = true := hs.1
  rw [hg] at h4
  simpa using h4

/-- Witness for C6 at a concrete arrival time of 7000 ms. -/
theorem C6_witness :
    (awaitReply (some 7000)).2 = true ∧
    (awaitReply (some 7000)).1 ≤ 7000 + 5000 ∧
    (awaitReply (some 7000)).1 < 120000 ∧
    awaitReply none = (120000, false) :=
  ⟨(C6_waiter_round_trip 7000 (by decide)).1,
   (C6_waiter_round_trip 7000 (by decide)).2.1,
   (C6_waiter_round_trip 7000 (by decide)).2.2.1,
   (C6_waiter_round_trip 7000 (by decide)).2.2.2.1⟩

/-- Naive truncation of a reply to the platform character ceiling, as
the spec words the fallback, for comparison with the published text. -/
def naiveTruncationToCeiling (ceiling : Nat) (s : String) : String :=
  String.mk (s.data.take ceiling)

/-- C7: in the cited code there is no completion service (the service
is absent) and the published quote text is `response.substring(0, 240)`
with a 240-character ceiling; hence whenever a reply was observed and
publishing succeeds, the published text equals the naive truncation of
the reply to the ceiling: a reply longer than the ceiling is cut to
exactly the ceiling length and a reply at or under the ceiling is
published unchanged. -/
theorem C7_truncation_fallback (st : BotState) (tweet : TweetData)
    (arrival : Option Nat) (rt : String)
    (h : (awaitReply arrival).2 = true) :
    (processTweetAndRespond st tweet arrival rt true).2 =
      some (naiveTruncationToCeiling 240 rt) ∧
    (240 < rt.length → (naiveTruncationToCeiling 240 rt).length = 240) ∧
    (rt.length ≤ 240 → naiveTruncationToCeiling 240 rt = rt) := by
  refine ⟨?_, ?_, ?_⟩
  · have h4 := (processTweet_spec st tweet arrival rt true).2.2.2
    rw [h] at h4
    simpa [substring0, naiveTruncationToCeiling] using h4
  · intro hl
    show (rt.data.take 240).length = 240
    have hd : rt.data.length = rt.length := rfl
    rw [List.length_take]
    omega
  · intro hl
    show String.mk (rt.data.take 240) = rt
    have ht : rt.data.take 240 = rt.data :=
      List.take_of_length_le (show rt.data.length ≤ 240 from hl)
    rw [ht]

/-- Concrete tweet for the C7 witness. -/
def c7TweetW : TweetData :=
  { id := "1", username := "alice", content := "hello @0xkeyaru",
    timestamp := 0, processed := false, response := none }

/-- Witness for C7: the short reply "hi" is published unchanged, as in
the end-to-end scenario of the spec. -/
theorem C7_witness :
    (processTweetAndRespond (initialState none) c7TweetW (some 0) "hi" true).2 =
      some (naiveTruncationToCeiling 240 "hi") ∧
    naiveTruncationToCeiling 240 "hi" = "hi" :=
  ⟨(C7_truncation_fallback (initialState none) c7TweetW (some 0) "hi" (by rfl)).1,
   (C7_truncation_fallback (initialState none) c7TweetW (some 0) "hi" (by rfl)).2.2
     (by decide)⟩

theorem mem_storeSet (store : List (String × TweetData)) (k : String)
    (v : TweetData) (p : String × TweetData) (h : p ∈ storeSet store k v) :
    p ∈ store ∨ p = (k, v) := by
  induction store with
  | nil => simpa [storeSet] using h
  | cons q rest ih =>
    cases q with
    | mk k0 v0 =>
      simp only [storeSet] at h
      by_cases hk : (k0 == k) = true
      · rw [if_pos hk] at h
        rcases List.mem_cons.mp h with rfl | hm
        · right
          rw [eq_of_beq hk]
        · left
          exact List.mem_cons_of_mem _ hm
      · rw [if_neg hk] at h
        rcases List.mem_cons.mp h with rfl | hm
        · left
          exact List.mem_cons_self _ _
        · rcases ih hm with hm2 | hm2
          · left
            exact List.mem_cons_of_mem _ hm2
          · right
            exact hm2

/-- C4 counterexample: the request body with `tweetId` present but
equal to the empty string and `response` present is answered with 400,
although its `tweetId` is not in the tracked-post store — under the
claim, with neither field missing, it should have been answered 404.
The validation is a falsiness check, so an empty-string field is
rejected as 400 before the store lookup. -/
theorem C4_counterexample :
    (postTweetResponse (initialState none) (some "") (some "hi")).2 = 400 ∧
    storeGet (initialState none).tweetStore "" = none ∧
    (some "" : Option String) ≠ none := by
  refine ⟨by rfl, by rfl, by simp⟩

/-- C4 (amended): the endpoint returns 400 when either body field is
missing or empty (falsy), leaving the state unchanged; otherwise 404
when the tweetId is not in the store, leaving the state unchanged;
otherwise 200 with the single side effect of setting the reply field on
the stored tracked post. -/
theorem C4_post_protocol (st : BotState) (tid resp : Option String) :
    ((truthy tid = false ∨ truthy resp = false) →
      postTweetResponse st tid resp = (st, 400)) ∧
    (truthy tid = true → truthy resp = true →
      storeGet st.tweetStore (tid.getD "") = none →
      postTweetResponse st tid resp = (st, 404)) ∧
    (∀ t, truthy tid = true → truthy resp = true →
      storeGet st.tweetStore (tid.getD "") = some t →
      postTweetResponse st tid resp =
        ({ st with
           tweetStore :=
             storeSet st.tweetStore (tid.getD "")
               ({ t with response := some (resp.getD "") }) },
         200)) := by
  refine ⟨?_, ?_, ?_⟩
  · rintro (h | h) <;> simp [postTweetResponse, h]
  · intro h1 h2 h3
    simp [postTweetResponse, h1, h2, h3]
  · intro t h1 h2 h3
    simp [postTweetResponse, h1, h2, h3]

/-- Concrete stored tweet for the C4 witness. -/
def c4TweetW : TweetData :=
  { id := "5", username := "dave", content := "ping @0xkeyaru",
    timestamp := 1, processed := false, response := none }

/-- Concrete state with one tracked post for the C4 witness. -/
def c4StateW : BotState :=
  { tweetStore := [("5", c4TweetW)], currentActiveTweet := some c4TweetW,
    processedTweetIds := [], persistedIds := none }

/-- Witness for C4: an accepted submission at a concrete state. -/
theorem C4_witness :
    postTweetResponse c4StateW (some "5") (some "hello") =
      ({ c4StateW with
         tweetStore :=
           storeSet c4StateW.tweetStore "5"
             ({ c4TweetW with response := some "hello" }) },
       200) :=
  (C4_post_protocol c4StateW (some "5") (some "hello")).2.2 c4TweetW
    (by rfl) (by rfl) (by rfl)

/-- Invariant that no tracked post carries an empty-string reply. -/
def noEmptyReplies (st : BotState) : Prop :=
  ∀ p ∈ st.tweetStore, p.2.response ≠ some ""

/-- C9: the `POST /api/tweet-response` validation is a falsiness check,
not a presence check: an empty-string `tweetId` or `response` (and a
missing `response`) is rejected with 400 and no mutation; consequently
a 200 response implies the submitted reply was a non-empty string, the
facade can never set the reply of a tracked post to the empty string, and
for any reply value the facade can have stored, the truthiness
test coincides with the reply being set. -/
theorem C9_falsy_validation (st : BotState) (tid resp : Option String) :
    (postTweetResponse st (some "") resp).2 = 400 ∧
    (postTweetResponse st tid (some "")).2 = 400 ∧
    (postTweetResponse st tid none).2 = 400 ∧
    ((postTweetResponse st tid resp).2 = 200 → ∃ s, resp = some s ∧ s ≠ "") ∧
    (noEmptyReplies st → noEmptyReplies (postTweetResponse st tid resp).1) ∧
    (∀ r : Option String, r ≠ some "" → truthy r = r.isSome) := by
  refine ⟨?_, ?_, ?_, ?_, ?_, ?_⟩
  · simp [postTweetResponse, truthy]
  · simp [postTweetResponse, truthy]
  · simp [postTweetResponse, truthy]
  · intro h200
    by_cases hv : (!(truthy tid) || !(truthy resp)) = true
    · rw [postTweetResponse, if_pos hv] at h200
      simp at h200
    · have hr : truthy resp = true := by
        simp only [Bool.or_eq_true, Bool.not_eq_true'] at hv
        cases hB : truthy resp with
        | false => exact absurd (Or.inr hB) hv
        | true => rfl
      cases resp with
      | none => simp [truthy] at hr
      | some s =>
        refine ⟨s, rfl, ?_⟩
        simpa [truthy] using hr
  · intro hinv
    by_cases hv : (!(truthy tid) || !(truthy resp)) = true
    · rw [postTweetResponse, if_pos hv]
      exact hinv
    · rw [postTweetResponse, if_neg hv]
      cases hg : storeGet st.tweetStore (tid.getD "") with
      | none => exact hinv
      | some t =>
        intro p hp
        have hr : truthy resp = true := by
          simp only [Bool.or_eq_true, Bool.not_eq_true'] at hv
          cases hB : truthy resp with
          | false => exact absurd (Or.inr hB) hv
          | true => rfl
        have hrs : resp.getD "" ≠ "" := by
          cases resp with
          | none => simp [truthy] at hr
          | some s => simpa [truthy] using hr
        rcases mem_storeSet _ _ _ _ hp with hm | rfl
        · exact hinv p hm
        · simpa using hrs
  · intro r hr
    cases r with
    | none => rfl
    | some s =>
      have hs : s ≠ "" := fun he => hr (by rw [he])
      simp [truthy, hs]

/-- Witness for C9 at concrete inputs: empty-string rejection and the
truthiness coincidence at a non-empty reply. -/
theorem C9_witness :
    (postTweetResponse (initialState none) (some "") (some "ok")).2 = 400 ∧
    truthy (some "hello") = (some "hello" : Option String).isSome :=
  ⟨(C9_falsy_validation (initialState none) (some "") (some "ok")).1,
   (C9_falsy_validation (initialState none) (some "x") (some "ok")).2.2.2.2.2
     (some "hello") (by simp)⟩

/-- Environment for the C5 counterexample: no stored session, a first
credential attempt failing with a network-transient timeout, and a
platform that would accept the second and third attempts. -/
def c5EnvCE : AuthEnv :=
  { cookieFileExists := false, cookieParseValid := true, setCookiesOk := true,
    cookieLoggedIn := true, credsPresent := true,
    credAttemptOutcomes := [CredAttempt.throws "etimedout: connection timeout",
                            CredAttempt.loggedIn true,
                            CredAttempt.loggedIn true] }

/-- C5 counterexample: after the first credential login attempt fails
with a network-transient timeout error, the code makes no further
attempt — `credAttemptsMade` is 1 and initialization throws — even
though the next attempt would have succeeded.  There is no retry loop,
no backoff, and no error classification in the cited code, refuting the
up-to-3-attempts exponential-backoff clause. -/
theorem C5_counterexample :
    initializeTwitterClient c5EnvCE =
      ({ cookieFileDeleted := false, credAttemptsMade := 1 },
        Except.error "Failed to authenticate with Twitter") ∧
    c5EnvCE.credAttemptOutcomes.get? 1 = some (CredAttempt.loggedIn true) := by
  exact ⟨by rfl, by rfl⟩

/-- C5 (amended): `initializeTwitterClient` first attempts restore of
the stored session artifact; on its success no deletion and no
credential attempt happen.  Only if it fails does it delete the
artifact exactly when one exists and attempt credential login exactly
once — with no retry and no backoff, regardless of how the failure
would be classified — and initialization throws when that single
attempt also fails. -/
theorem C5_auth_order (env : AuthEnv) :
    (tryAuthWithCookies env = true →
      initializeTwitterClient env =
        ({ cookieFileDeleted := false, credAttemptsMade := 0 }, Except.ok ())) ∧
    (tryAuthWithCookies env = false →
      (initializeTwitterClient env).1.cookieFileDeleted = env.cookieFileExists) ∧
    (tryAuthWithCookies env = false → env.credsPresent = true →
      (initializeTwitterClient env).1.credAttemptsMade = 1) ∧
    (tryAuthWithCookies env = false → env.credsPresent = true →
      credLoginOnce env.credAttemptOutcomes = false →
      (initializeTwitterClient env).2 =
        Except.error "Failed to authenticate with Twitter") := by
  refine ⟨?_, ?_, ?_, ?_⟩
  · intro h
    simp [initializeTwitterClient, h]
  · intro h
    by_cases hc : env.credsPresent = true
    · cases hl : credLoginOnce env.credAttemptOutcomes <;>
        simp [initializeTwitterClient, loginWithCredentials, h, hc, hl]
    · simp [initializeTwitterClient, loginWithCredentials, h, hc]
  · intro h hc
    cases hl : credLoginOnce env.credAttemptOutcomes <;>
      simp [initializeTwitterClient, loginWithCredentials, h, hc, hl]
  · intro h hc hl
    simp [initializeTwitterClient, loginWithCredentials, h, hc, hl]

/-- Environment for the C5 witness: a valid stored session. -/
def c5EnvW : AuthEnv :=
  { cookieFileExists := true, cookieParseValid := true, setCookiesOk := true,
    cookieLoggedIn := true, credsPresent := true, credAttemptOutcomes := [] }

/-- Witness for C5: cookie authentication succeeds, so nothing is
deleted and no credential attempt is made. -/
theorem C5_witness :
    initializeTwitterClient c5EnvW =
      ({ cookieFileDeleted := false, credAttemptsMade := 0 }, Except.ok ()) :=
  (C5_auth_order c5EnvW).1 (by rfl)

theorem load_after_save_contains (st : BotState) (x : String) :
    (loadProcessedTweets (initialState
      (saveProcessedTweets st).persistedIds)).processedTweetIds.contains x =
    st.processedTweetIds.contains x := by
  have hmem : x ∈ (loadProcessedTweets (initialState
      (saveProcessedTweets st).persistedIds)).processedTweetIds ↔
      x ∈ st.processedTweetIds := by
    simp only [saveProcessedTweets, initialState, loadProcessedTweets]
    rw [mem_foldl_addId]
    simp
  by_cases hx : x ∈ st.processedTweetIds
  · have h1 : (loadProcessedTweets (initialState
        (saveProcessedTweets st).persistedIds)).processedTweetIds.contains x = true := by
      simpa using hmem.mpr hx
    have h2 : st.processedTweetIds.contains x = true := by simpa using hx
    rw [h1, h2]
  · have h1 : (loadProcessedTweets (initialState
        (saveProcessedTweets st).persistedIds)).processedTweetIds.contains x = false := by
      simpa using fun hmm => hx (hmem.mp hmm)
    have h2 : st.processedTweetIds.contains x = false := by simpa using hx
    rw [h1, h2]

/-- C8: the handled-ID set loaded at a restart (an empty in-memory set
folded with the IDs persisted by the last save) contains exactly the
IDs of the set that was saved, and the poller run on the reloaded state
never returns a post whose ID is present in that file. -/
theorem C8_persistence_round_trip (st : BotState) (x : String) :
    ((loadProcessedTweets (initialState
        (saveProcessedTweets st).persistedIds)).processedTweetIds.contains x =
      st.processedTweetIds.contains x) ∧
    (∀ now tws td,
      (searchForLatestTweet now tws (loadProcessedTweets (initialState
        (saveProcessedTweets st).persistedIds))).1 = some td →
      st.processedTweetIds.contains td.id = false) := by
  refine ⟨load_after_save_contains st x, ?_⟩
  intro now tws td h
  have hc := (search_some_not_processed now tws _ td h).1
  rw [load_after_save_contains st td.id] at hc
  exact hc

/-- Concrete state with one handled ID for the C8 witness. -/
def c8StateW : BotState :=
  { tweetStore := [], currentActiveTweet := none,
    processedTweetIds := ["1"], persistedIds := none }

/-- Concrete search result with a fresh ID for the C8 witness. -/
def c8TweetW : SearchTweet :=
  { id := some "2", username := some "bob", text := some "yo @0xkeyaru" }

/-- Witness for C8: the reloaded set still contains the persisted ID
"1", and a search returning the fresh post "2" proves "2" was not in
the file. -/
theorem C8_witness :
    ((loadProcessedTweets (initialState
        (saveProcessedTweets c8StateW).persistedIds)).processedTweetIds.contains "1" =
      c8StateW.processedTweetIds.contains "1") ∧
    c8StateW.processedTweetIds.contains (mkTweetData 0 c8TweetW).id = false :=
  ⟨(C8_persistence_round_trip c8StateW "1").1,
   (C8_persistence_round_trip c8StateW "1").2 0 [c8TweetW] (mkTweetData 0 c8TweetW)
     (by decide)⟩

/-- C10: when a reply was observed but publishing the quote tweet
throws (the only operation in the `try` block of the responder that can
throw), the `catch` path still records the post ID in the handled set
and persists that set to disk, nothing is published, and no later
search can ever return a post with that ID again. -/
theorem C10_exception_still_handled (st : BotState) (tweet : TweetData)
    (arrival : Option Nat) (rt : String)
    (h : (awaitReply arrival).2 = true) :
    (processTweetAndRespond st tweet arrival rt false).2 = none ∧
    (processTweetAndRespond st tweet arrival rt false).1.processedTweetIds.contains
      tweet.id = true ∧
    (processTweetAndRespond st tweet arrival rt false).1.persistedIds =
      some (processTweetAndRespond st tweet arrival rt false).1.processedTweetIds ∧
    (∀ now tws td,
      (searchForLatestTweet now tws
        (processTweetAndRespond st tweet arrival rt false).1).1 = some td →
      td.id ≠ tweet.id) := by
  obtain ⟨h1, h2, h3, h4⟩ := processTweet_spec st tweet arrival rt false
  refine ⟨by simpa [h] using h4, h2, h3, ?_⟩
  intro now tws td hs he
  have hc := (search_some_not_processed now tws _ td hs).1
  rw [he, h2] at hc
  exact Bool.noConfusion hc

/-- Concrete tweet for the C10 witness. -/
def c10TweetW : TweetData :=
  { id := "8", username := "erin", content := "ask @0xkeyaru",
    timestamp := 2, processed := false, response := none }

/-- Witness for C10: a failed publish at a concrete state still marks
the post handled and persists the set. -/
theorem C10_witness :
    (processTweetAndRespond (initialState none) c10TweetW (some 0) "resp" false).2 = none ∧
    (processTweetAndRespond (initialState none) c10TweetW (some 0) "resp" false).1.processedTweetIds.contains
      c10TweetW.id = true ∧
    (processTweetAndRespond (initialState none) c10TweetW (some 0) "resp" false).1.persistedIds =
      some (processTweetAndRespond (initialState none) c10TweetW (some 0) "resp" false).1.processedTweetIds :=
  ⟨(C10_exception_still_handled (initialState none) c10TweetW (some 0) "resp" (by rfl)).1,
   (C10_exception_still_handled (initialState none) c10TweetW (some 0) "resp" (by rfl)).2.1,
   (C10_exception_still_handled (initialState none) c10TweetW (some 0) "resp" (by rfl)).2.2.1⟩

end AlsCare
